import Mathlib

/-!
Shallow embedding of the coordination core of the Cdaprod/golang-boilerplate
multimedia system: the debounced GPIO button monitor
(internal/gpio/gpio.go), the FFmpeg process supervisor
(internal/streaming/streaming.go), the WebSocket broadcast hub
(internal/websocket/websocket.go), the orchestrating facade
(internal/facade/facade.go) and the video manager
(internal/videomanager/videomanager.go), together with theorems settling
the specification claims about them.

Definitions come first, translated from the Go source; the theorems follow.
-/

namespace GPIO

/-- Logic level of the GPIO pin, `rpio.State`: `Low = 0` (pressed, with the
pull-up resistor), `High = 1`.  The Go zero value is `Low`. -/
inductive RState where
  | Low
  | High
deriving DecidableEq, Repr

/-- The loop-local state of `GPIOManagerImpl.MonitorButton`:
`var lastState rpio.State` and `var lastDebounce time.Time`.
Time is modelled as a `Nat` (an abstract clock, e.g. milliseconds);
the Go zero `time.Time` is modelled as instant `0`. -/
structure MonitorState where
  lastState : RState
  lastDebounce : Nat
deriving DecidableEq, Repr

/-- One `ticker.C` iteration of `MonitorButton`, at clock instant `now`,
reading raw level `current` from the pin:

    currentState := g.pin.Read()
    if currentState != lastState {
        lastDebounce = time.Now()
    }
    if time.Since(lastDebounce) > g.debounce {
        if currentState != lastState {
            lastState = currentState
            if currentState == rpio.Low {
                callback()
            }
        }
    }

Returns the updated loop state and whether `callback()` was invoked on
this tick.  `time.Since(lastDebounce)` is `now - lastDebounce`: the
nanoseconds elapsing between the assignment and the check inside one
iteration are far below any configured debounce window, so they are
modelled as zero, which is faithful whenever `0 < debounce`. -/
def pollTick (debounce : Nat) (st : MonitorState) (now : Nat) (current : RState) :
    MonitorState × Bool :=
  let lastDebounce := if current = st.lastState then st.lastDebounce else now
  if now - lastDebounce > debounce then
    if current = st.lastState then
      (⟨st.lastState, lastDebounce⟩, false)
    else
      (⟨current, lastDebounce⟩, decide (current = RState.Low))
  else
    (⟨st.lastState, lastDebounce⟩, false)

/-- Run the polling loop over a finite prefix of raw pin readings, one per
tick, the clock advancing by `tick` between iterations; counts the
`callback()` invocations. -/
def runMonitor (debounce tick : Nat) : MonitorState → Nat → List RState → Nat
  | _, _, [] => 0
  | st, now, c :: cs =>
      let r := pollTick debounce st now c
      (if r.2 then 1 else 0) + runMonitor debounce tick r.1 (now + tick) cs

/-- Callback invocations of a whole `MonitorButton` run started at clock
instant `t0` with the Go zero values `lastState = Low`,
`lastDebounce = time.Time zero = 0`. -/
def countCallbacks (debounce tick t0 : Nat) (inputs : List RState) : Nat :=
  runMonitor debounce tick ⟨RState.Low, 0⟩ t0 inputs

/-- `runsShorterAux k prev len l = true` iff every maximal constant run of
`prev :: l` (whose first run already has length `len`) is strictly shorter
than `k` samples. -/
def runsShorterAux (k : Nat) : RState → Nat → List RState → Bool
  | _, len, [] => decide (len < k)
  | prev, len, c :: cs =>
      if c = prev then runsShorterAux k prev (len + 1) cs
      else decide (len < k) && runsShorterAux k c 1 cs

/-- The raw input oscillates faster than a window of `k` samples: every
maximal run of identical consecutive raw levels is strictly shorter than
`k` samples, i.e. every raw-level change reverses before `k` ticks
elapse. -/
def oscillatesWithin (k : Nat) : List RState → Bool
  | [] => true
  | c :: cs => runsShorterAux k c 1 cs

/-- A single clean press, sampled by the 10 ms ticker against the 500 ms
debounce window configured in cmd/server/main.go: the pin reads `High`
(released) for 5 ticks, then `Low` (pressed) held stable for 100 ticks
= 1000 ms, well beyond the debounce window. -/
def cleanPressInput : List RState :=
  List.replicate 5 RState.High ++ List.replicate 100 RState.Low

end GPIO

namespace Streaming

/-- Abstract error values (Go `error`). -/
abbrev GoError := String

/-- An `exec.Cmd` handle; `process = none` models a nil `cmd.Process`
field, `some pid` a recorded OS process. -/
structure Cmd where
  process : Option Nat
deriving DecidableEq, Repr

/-- The supervisor state of `FFmpegStreamer`: the tracked handle `cmd`
(`none` models the nil pointer) and the `status` flag.  The mutex
serializes `StartStream`, `StopStream`, `IsStreaming` and the watcher
body; each operation is modelled as one atomic step on this state. -/
structure FFmpegStreamer where
  cmd : Option Cmd
  status : Bool
deriving DecidableEq, Repr

/-- Outcome of `cmd.Start()`, supplied by the OS environment: either the
launch succeeds and yields a live handle, or it fails with an error. -/
inductive LaunchOutcome where
  | ok (c : Cmd)
  | fail (e : GoError)
deriving DecidableEq, Repr

/-- Result of `StartStream`: the supervisor state after the call, the Go
return value, and whether the watcher goroutine `go func { cmd.Wait() ... }`
was spawned during the call. -/
structure StartResult where
  state : FFmpegStreamer
  ret : Except GoError Unit
  watcherArmed : Bool
deriving Repr

/-- `FFmpegStreamer.StartStream`:

    if s.status { return nil }                  // already running: no-op
    ... build cmd ...
    if err := cmd.Start(); err != nil { return err }
    s.cmd = cmd
    s.status = true
    go func() { cmd.Wait(); ...; s.status = false }()
    return nil
-/
def StartStream (s : FFmpegStreamer) (launch : LaunchOutcome) : StartResult :=
  if s.status then
    ⟨s, Except.ok (), false⟩
  else
    match launch with
    | LaunchOutcome.fail e => ⟨s, Except.error e, false⟩
    | LaunchOutcome.ok c => ⟨⟨some c, true⟩, Except.ok (), true⟩

/-- Whether `s.cmd == nil || s.cmd.Process == nil` (the short-circuit in
Go evaluates `s.cmd.Process` only when `s.cmd != nil`). -/
def handleMissing (s : FFmpegStreamer) : Bool :=
  match s.cmd with
  | none => true
  | some c => c.process.isNone

/-- `FFmpegStreamer.StopStream`, with `kill` the outcome of
`s.cmd.Process.Kill()` supplied by the OS environment:

    if !s.status || s.cmd == nil || s.cmd.Process == nil { return nil }
    if err := s.cmd.Process.Kill(); err != nil { return err }
    s.status = false
    return nil
-/
def StopStream (s : FFmpegStreamer) (kill : Except GoError Unit) :
    FFmpegStreamer × Except GoError Unit :=
  if !s.status || handleMissing s then
    (s, Except.ok ())
  else
    match kill with
    | Except.error e => (s, Except.error e)
    | Except.ok _ => (⟨s.cmd, false⟩, Except.ok ())

/-- `FFmpegStreamer.IsStreaming`: lock-protected read of `s.status`. -/
def IsStreaming (s : FFmpegStreamer) : Bool :=
  s.status

/-- The body of the watcher goroutine once `cmd.Wait()` has returned
(i.e. once the external process has exited, for any reason):

    s.mutex.Lock(); s.status = false; s.mutex.Unlock()
-/
def watcherExit (s : FFmpegStreamer) : FFmpegStreamer :=
  ⟨s.cmd, false⟩

/-- A supervisor state with a live tracked process: handle recorded,
process present, `status = true`. -/
def runningStreamer : FFmpegStreamer :=
  ⟨some ⟨some 42⟩, true⟩

end Streaming

namespace Websocket

/-- A WebSocket connection identity (a `*websocket.Conn` map key). -/
abbrev Conn := Nat

/-- `WebSocketManagerImpl`: the `clients map[*websocket.Conn]bool` set,
modelled as the list of registered connections (map keys are unique, so a
well-formed state has no duplicates). -/
structure WebSocketManagerImpl where
  clients : List Conn
deriving DecidableEq, Repr

/-- The `for client := range wm.clients` loop of `BroadcastMessage`, with
`writeOk c` the outcome of `client.WriteMessage` for connection `c`:

    for client := range wm.clients {
        err := client.WriteMessage(websocket.TextMessage, []byte(message))
        if err != nil {
            client.Close()
            delete(wm.clients, client)
        }
    }

Returns the list of connections a write was attempted on (each ranged-over
key exactly once) and the connections remaining registered afterwards. -/
def broadcastLoop (writeOk : Conn → Bool) : List Conn → List Conn × List Conn
  | [] => ([], [])
  | c :: cs =>
      let r := broadcastLoop writeOk cs
      if writeOk c then (c :: r.1, c :: r.2) else (c :: r.1, r.2)

/-- `WebSocketManagerImpl.BroadcastMessage`: attempts one write per
registered client, removing (and closing) every client whose write fails,
synchronously within the pass. -/
def BroadcastMessage (wm : WebSocketManagerImpl) (writeOk : Conn → Bool) :
    WebSocketManagerImpl × List Conn :=
  let r := broadcastLoop writeOk wm.clients
  (⟨r.2⟩, r.1)

end Websocket

namespace Facade

open Streaming

/-- `facadeImpl.StartStream`: delegate to the supervisor, and on success
broadcast a "Stream started" event; on failure return the error without
broadcasting.  The second component lists the messages handed to
`BroadcastMessage` during the call:

    err := f.streamer.StartStream(ctx)
    if err != nil { return err }
    f.BroadcastMessage("Stream started")
    return nil
-/
def facadeStartStream (s : FFmpegStreamer) (launch : LaunchOutcome) :
    StartResult × List String :=
  let r := StartStream s launch
  match r.ret with
  | Except.error _ => (r, [])
  | Except.ok _ => (r, ["Stream started"])

/-- `facadeImpl.StopStream`: delegate to the supervisor, and on success
broadcast a "Stream stopped" event; on failure return the error without
broadcasting. -/
def facadeStopStream (s : FFmpegStreamer) (kill : Except GoError Unit) :
    (FFmpegStreamer × Except GoError Unit) × List String :=
  let r := StopStream s kill
  match r.2 with
  | Except.error _ => (r, [])
  | Except.ok _ => (r, ["Stream stopped"])

end Facade

namespace Videomanager

/-- Abstract error values (Go `error`). -/
abbrev GoError := String

/-- A directory entry returned by `os.ReadDir`: its name and whether it is
a directory. -/
structure DirEntry where
  name : String
  isDir : Bool
deriving DecidableEq, Repr

/-- Scan of `filepath.Ext` over the reversed characters of the path, `acc`
holding the characters already passed (in forward order): stop at a path
separator or at the start with no extension, or return from the final
dot. -/
def extRevAux (acc : List Char) : List Char → List Char
  | [] => []
  | c :: cs =>
      if c = '/' then []
      else if c = '.' then c :: acc
      else extRevAux (c :: acc) cs

/-- Go `filepath.Ext`: the suffix beginning at the final dot in the final
slash-separated element of the path; empty if there is no dot. -/
def Ext (path : String) : String :=
  String.mk (extRevAux [] path.data.reverse)

/-- `isVideoFile`:

    ext := strings.ToLower(filepath.Ext(filename))
    switch ext {
    case ".mp4", ".flv", ".mkv", ".avi": return true
    default: return false
    }
-/
def isVideoFile (filename : String) : Bool :=
  let ext := (Ext filename).toLower
  ext = ".mp4" || ext = ".flv" || ext = ".mkv" || ext = ".avi"

/-- The `for _, file := range files` loop of `ListVideos`, collecting in
iteration order the names of non-directory entries recognised as video
files. -/
def collectVideos : List DirEntry → List String
  | [] => []
  | f :: fs =>
      if !f.isDir && isVideoFile f.name then f.name :: collectVideos fs
      else collectVideos fs

/-- `VideoManagerImpl.ListVideos`, with `readDir` the outcome of
`os.ReadDir(vm.storageDir)` supplied by the filesystem:

    files, err := os.ReadDir(vm.storageDir)
    if err != nil { return nil, err }
    for _, file := range files {
        if !file.IsDir() && isVideoFile(file.Name()) {
            videos = append(videos, file.Name())
        }
    }
    return videos, nil
-/
def ListVideos (readDir : Except GoError (List DirEntry)) :
    Except GoError (List String) :=
  match readDir with
  | Except.error e => Except.error e
  | Except.ok files => Except.ok (collectVideos files)

end Videomanager

namespace GPIO

/-- On any tick, the callback is never invoked: if the raw level differs
from `lastState` then `lastDebounce` was just reset to `now`, so
`time.Since(lastDebounce) > debounce` fails (the elapsed time is zero);
if it does not differ, the inner `currentState != lastState` guard
fails.  The two guards can never hold together, so the `callback()` call
is dead code. -/
theorem pollTick_never_fires (debounce : Nat) (st : MonitorState) (now : Nat)
    (c : RState) : (pollTick debounce st now c).2 = false := by
  unfold pollTick
  by_cases h : c = st.lastState
  · simp [h]
  · simp [h]

/-- Over any run of the polling loop, from any loop state, zero callbacks
are delivered. -/
theorem runMonitor_eq_zero (debounce tick : Nat) (inputs : List RState) :
    ∀ (st : MonitorState) (now : Nat),
      runMonitor debounce tick st now inputs = 0 := by
  induction inputs with
  | nil => intro st now; rfl
  | cons c cs ih =>
      intro st now
      simp only [runMonitor, pollTick_never_fires, if_neg Bool.false_ne_true,
        Nat.zero_add]
      exact ih _ _

/-- C1: a single clean transition of the raw level into `Low`, held stable
for 1000 ms against the 500 ms debounce window of cmd/server/main.go
sampled on the 10 ms ticker, invokes the callback zero times — not the
exactly-once the claim states.  `MonitorButton` resets `lastDebounce` on
every tick on which `currentState != lastState`, and `lastState` is only
ever updated under the `time.Since(lastDebounce) > g.debounce` guard, so
the guard is unreachable whenever the raw level differs from `lastState`
and the callback can never fire. -/
theorem C1_clean_press_fires_zero_not_once :
    countCallbacks 500 10 1000 cleanPressInput = 0 ∧
    countCallbacks 500 10 1000 cleanPressInput ≠ 1 := by
  have h : countCallbacks 500 10 1000 cleanPressInput = 0 :=
    runMonitor_eq_zero 500 10 cleanPressInput ⟨RState.Low, 0⟩ 1000
  exact ⟨h, by rw [h]; decide⟩

/-- C2: a raw input that oscillates faster than the debounce window —
every maximal constant run shorter than the window's worth of samples —
produces zero callback invocations. -/
theorem C2_oscillation_zero_callbacks (debounce tick t0 : Nat)
    (inputs : List RState) (hdb : 0 < debounce)
    (hosc : oscillatesWithin (debounce / tick) inputs = true) :
    countCallbacks debounce tick t0 inputs = 0 :=
  runMonitor_eq_zero debounce tick inputs ⟨RState.Low, 0⟩ t0

/-- Witness for C2 at the configured 500 ms window and 10 ms tick, on a
raw input alternating every sample. -/
theorem C2_oscillation_zero_callbacks_witness :
    0 < 500 ∧
    oscillatesWithin (500 / 10)
      [RState.Low, RState.High, RState.Low, RState.High] = true ∧
    countCallbacks 500 10 1000
      [RState.Low, RState.High, RState.Low, RState.High] = 0 :=
  ⟨by decide, by decide,
    C2_oscillation_zero_callbacks 500 10 1000
      [RState.Low, RState.High, RState.Low, RState.High]
      (by decide) (by decide)⟩

end GPIO

namespace Streaming

/-- C3 counterexample: from a state with a live tracked process, a
`StopStream` whose `Process.Kill()` fails returns that error — not
success — and leaves `status` at `true`; the claim states the failure is
treated as success with `running` becoming false. -/
theorem C3_kill_failure_counterexample :
    IsStreaming runningStreamer = true ∧
    (StopStream runningStreamer (Except.error "process already gone")).2 ≠
      Except.ok () ∧
    IsStreaming
      (StopStream runningStreamer (Except.error "process already gone")).1 =
      true := by
  refine ⟨rfl, ?_, rfl⟩
  intro h
  simp [StopStream, runningStreamer, handleMissing] at h

/-- C3 amended: if `Stop` is called while a process is tracked as running
and signal delivery fails, the failure is logged and the error is
returned to the caller, with the supervisor state unchanged (`running`
stays true); `running` becomes false only later, when the exit watcher
observes the process exit. -/
theorem C3_kill_failure_returns_error (s : FFmpegStreamer) (e : GoError)
    (hs : s.status = true) (hc : handleMissing s = false) :
    StopStream s (Except.error e) = (s, Except.error e) ∧
    IsStreaming s = true ∧
    IsStreaming (watcherExit (StopStream s (Except.error e)).1) = false := by
  refine ⟨?_, hs, rfl⟩
  simp [StopStream, hs, hc]

/-- Witness for the amended C3 on a concrete running supervisor state. -/
theorem C3_kill_failure_returns_error_witness :
    runningStreamer.status = true ∧
    handleMissing runningStreamer = false ∧
    (StopStream runningStreamer (Except.error "gone") =
        (runningStreamer, Except.error "gone") ∧
      IsStreaming runningStreamer = true ∧
      IsStreaming
        (watcherExit (StopStream runningStreamer (Except.error "gone")).1) =
        false) :=
  ⟨rfl, rfl, C3_kill_failure_returns_error runningStreamer "gone" rfl rfl⟩

/-- C4: `Stop` on a state with no running process returns success and
leaves the state unchanged; `Start` on a state with a running process
returns success, arms no new watcher and does not replace the handle; and
after a `Start` that launches successfully, a second consecutive `Start`
is such a no-op, so exactly one live process results. -/
theorem C4_start_stop_idempotent (s t : FFmpegStreamer)
    (kill : Except GoError Unit) (l1 l2 : LaunchOutcome) (c : Cmd)
    (hs : s.status = false) (ht : t.status = true) :
    StopStream s kill = (s, Except.ok ()) ∧
    StartStream t l1 = ⟨t, Except.ok (), false⟩ ∧
    StartStream (StartStream s (LaunchOutcome.ok c)).state l2 =
      ⟨(StartStream s (LaunchOutcome.ok c)).state, Except.ok (), false⟩ := by
  refine ⟨?_, ?_, ?_⟩
  · simp [StopStream, hs]
  · simp [StartStream, ht]
  · simp [StartStream, hs]

/-- Witness for C4 on concrete stopped and running supervisor states. -/
theorem C4_start_stop_idempotent_witness :
    (⟨none, false⟩ : FFmpegStreamer).status = false ∧
    runningStreamer.status = true ∧
    (StopStream ⟨none, false⟩ (Except.ok ()) =
        (⟨none, false⟩, Except.ok ()) ∧
      StartStream runningStreamer (LaunchOutcome.ok ⟨some 7⟩) =
        ⟨runningStreamer, Except.ok (), false⟩ ∧
      StartStream
          (StartStream ⟨none, false⟩ (LaunchOutcome.ok ⟨some 7⟩)).state
          (LaunchOutcome.ok ⟨some 9⟩) =
        ⟨(StartStream ⟨none, false⟩ (LaunchOutcome.ok ⟨some 7⟩)).state,
          Except.ok (), false⟩) :=
  ⟨rfl, rfl,
    C4_start_stop_idempotent ⟨none, false⟩ runningStreamer (Except.ok ())
      (LaunchOutcome.ok ⟨some 7⟩) (LaunchOutcome.ok ⟨some 9⟩) ⟨some 7⟩
      rfl rfl⟩

/-- C5: when the launch of the external encoder fails, `StartStream`
returns that error, the state is unchanged, `running` stays false, and no
watcher is armed. -/
theorem C5_launch_failure_atomic (s : FFmpegStreamer) (e : GoError)
    (hs : s.status = false) :
    StartStream s (LaunchOutcome.fail e) = ⟨s, Except.error e, false⟩ ∧
    IsStreaming (StartStream s (LaunchOutcome.fail e)).state = false := by
  constructor
  · simp [StartStream, hs]
  · simp [StartStream, IsStreaming, hs]

/-- Witness for C5 on the initial supervisor state. -/
theorem C5_launch_failure_atomic_witness :
    (⟨none, false⟩ : FFmpegStreamer).status = false ∧
    (StartStream ⟨none, false⟩ (LaunchOutcome.fail "exec: ffmpeg not found") =
        ⟨⟨none, false⟩, Except.error "exec: ffmpeg not found", false⟩ ∧
      IsStreaming
        (StartStream ⟨none, false⟩
            (LaunchOutcome.fail "exec: ffmpeg not found")).state = false) :=
  ⟨rfl, C5_launch_failure_atomic ⟨none, false⟩ "exec: ffmpeg not found" rfl⟩

/-- C6: every successful launch arms the exit watcher, and when the
watcher body runs — the process having exited, with no `Stop` call
involved — it sets `status` to false, so `IsStreaming` reports false from
then on. -/
theorem C6_watcher_clears_running (s : FFmpegStreamer) (c : Cmd)
    (hs : s.status = false) :
    (StartStream s (LaunchOutcome.ok c)).watcherArmed = true ∧
    ∀ u : FFmpegStreamer, IsStreaming (watcherExit u) = false := by
  constructor
  · simp [StartStream, hs]
  · intro u; rfl

/-- Witness for C6 on the initial supervisor state. -/
theorem C6_watcher_clears_running_witness :
    (⟨none, false⟩ : FFmpegStreamer).status = false ∧
    ((StartStream ⟨none, false⟩ (LaunchOutcome.ok ⟨some 7⟩)).watcherArmed =
        true ∧
      ∀ u : FFmpegStreamer, IsStreaming (watcherExit u) = false) :=
  ⟨rfl, C6_watcher_clears_running ⟨none, false⟩ ⟨some 7⟩ rfl⟩

/-- C9: when `Stop` is called with a running tracked process and the kill
succeeds, `status` is cleared synchronously inside the call: `Stop`
returns success and `IsStreaming` is false immediately on the resulting
state, with no watcher involvement needed. -/
theorem C9_stop_clears_status_synchronously (s : FFmpegStreamer)
    (hs : s.status = true) (hc : handleMissing s = false) :
    (StopStream s (Except.ok ())).2 = Except.ok () ∧
    IsStreaming (StopStream s (Except.ok ())).1 = false := by
  constructor
  · simp [StopStream, hs, hc]
  · simp [StopStream, IsStreaming, hs, hc]

/-- Witness for C9 on a concrete running supervisor state. -/
theorem C9_stop_clears_status_synchronously_witness :
    runningStreamer.status = true ∧
    handleMissing runningStreamer = false ∧
    ((StopStream runningStreamer (Except.ok ())).2 = Except.ok () ∧
      IsStreaming (StopStream runningStreamer (Except.ok ())).1 = false) :=
  ⟨rfl, rfl, C9_stop_clears_status_synchronously runningStreamer rfl rfl⟩

end Streaming

namespace Facade

open Streaming

/-- C7: the facade start publishes exactly one "Stream started" event when
the supervisor's `StartStream` succeeds and returns success; when
`StartStream` fails, the same error is propagated and nothing is
published.  Symmetrically, the facade stop publishes "Stream stopped"
exactly when the supervisor's `StopStream` succeeds, and propagates its
error publishing nothing otherwise. -/
theorem C7_facade_publishes_on_success (s1 s2 s3 s4 : FFmpegStreamer)
    (l1 l2 : LaunchOutcome) (k3 k4 : Except GoError Unit) (e2 e4 : GoError)
    (h1 : (StartStream s1 l1).ret = Except.ok ())
    (h2 : (StartStream s2 l2).ret = Except.error e2)
    (h3 : (StopStream s3 k3).2 = Except.ok ())
    (h4 : (StopStream s4 k4).2 = Except.error e4) :
    facadeStartStream s1 l1 = (StartStream s1 l1, ["Stream started"]) ∧
    facadeStartStream s2 l2 = (StartStream s2 l2, []) ∧
    (facadeStartStream s2 l2).1.ret = Except.error e2 ∧
    facadeStopStream s3 k3 = (StopStream s3 k3, ["Stream stopped"]) ∧
    facadeStopStream s4 k4 = (StopStream s4 k4, []) ∧
    (facadeStopStream s4 k4).1.2 = Except.error e4 := by
  refine ⟨?_, ?_, ?_, ?_, ?_, ?_⟩
  · simp [facadeStartStream, h1]
  · simp [facadeStartStream, h2]
  · simp [facadeStartStream, h2]
  · simp [facadeStopStream, h3]
  · simp [facadeStopStream, h4]
  · simp [facadeStopStream, h4]

/-- Witness for C7: a successful and a failing start from the initial
state, a successful and a failing stop from a running state. -/
theorem C7_facade_publishes_on_success_witness :
    (StartStream ⟨none, false⟩ (LaunchOutcome.ok ⟨some 7⟩)).ret =
      Except.ok () ∧
    (StartStream ⟨none, false⟩ (LaunchOutcome.fail "boom")).ret =
      Except.error "boom" ∧
    (StopStream runningStreamer (Except.ok ())).2 = Except.ok () ∧
    (StopStream runningStreamer (Except.error "gone")).2 =
      Except.error "gone" ∧
    (facadeStartStream ⟨none, false⟩ (LaunchOutcome.ok ⟨some 7⟩) =
        (StartStream ⟨none, false⟩ (LaunchOutcome.ok ⟨some 7⟩),
          ["Stream started"]) ∧
      facadeStartStream ⟨none, false⟩ (LaunchOutcome.fail "boom") =
        (StartStream ⟨none, false⟩ (LaunchOutcome.fail "boom"), []) ∧
      (facadeStartStream ⟨none, false⟩ (LaunchOutcome.fail "boom")).1.ret =
        Except.error "boom" ∧
      facadeStopStream runningStreamer (Except.ok ()) =
        (StopStream runningStreamer (Except.ok ()), ["Stream stopped"]) ∧
      facadeStopStream runningStreamer (Except.error "gone") =
        (StopStream runningStreamer (Except.error "gone"), []) ∧
      (facadeStopStream runningStreamer (Except.error "gone")).1.2 =
        Except.error "gone") :=
  ⟨rfl, rfl, rfl, rfl,
    C7_facade_publishes_on_success ⟨none, false⟩ ⟨none, false⟩
      runningStreamer runningStreamer (LaunchOutcome.ok ⟨some 7⟩)
      (LaunchOutcome.fail "boom") (Except.ok ()) (Except.error "gone")
      "boom" "gone" rfl rfl rfl rfl⟩

end Facade

namespace Websocket

/-- The broadcast loop attempts a write on every ranged-over client and
keeps exactly those whose write succeeded. -/
theorem broadcastLoop_eq (writeOk : Conn → Bool) (l : List Conn) :
    broadcastLoop writeOk l = (l, l.filter writeOk) := by
  induction l with
  | nil => rfl
  | cons c cs ih =>
      by_cases h : writeOk c <;>
        simp [broadcastLoop, ih, List.filter_cons, h]

/-- C8: in a publish pass over a well-formed subscriber set, every
registered subscriber is written to exactly once; a subscriber whose
write fails is removed from the set synchronously within that pass, is
attempted by no subsequent publish (never retried) and is absent from the
set every subsequent publish observes; a subscriber whose write succeeds
remains registered. -/
theorem C8_failed_subscriber_removed (wm : WebSocketManagerImpl)
    (writeOk writeOk2 : Conn → Bool) (c : Conn)
    (hmem : c ∈ wm.clients) (hnd : wm.clients.Nodup) :
    (BroadcastMessage wm writeOk).2.count c = 1 ∧
    (writeOk c = false →
      c ∉ (BroadcastMessage wm writeOk).1.clients ∧
      c ∉ (BroadcastMessage (BroadcastMessage wm writeOk).1 writeOk2).2 ∧
      c ∉ (BroadcastMessage (BroadcastMessage wm writeOk).1 writeOk2).1.clients) ∧
    (writeOk c = true → c ∈ (BroadcastMessage wm writeOk).1.clients) := by
  simp only [BroadcastMessage, broadcastLoop_eq]
  refine ⟨List.count_eq_one_of_mem hnd hmem, fun hf => ⟨?_, ?_, ?_⟩, fun ht => ?_⟩
  · simp [List.mem_filter, hf]
  · simp [List.mem_filter, hf]
  · simp [List.mem_filter, hf]
  · simp [List.mem_filter, hmem, ht]

/-- Witness for C8: three registered subscribers, the write to subscriber
2 failing and the one to subscriber 1 succeeding. -/
theorem C8_failed_subscriber_removed_witness :
    (2 : Conn) ∈ (⟨[1, 2, 3]⟩ : WebSocketManagerImpl).clients ∧
    (⟨[1, 2, 3]⟩ : WebSocketManagerImpl).clients.Nodup ∧
    ((BroadcastMessage ⟨[1, 2, 3]⟩ (fun c => !decide (c = 2))).2.count 2 = 1 ∧
      ((fun (c : Conn) => !decide (c = 2)) 2 = false →
        2 ∉ (BroadcastMessage ⟨[1, 2, 3]⟩ (fun c => !decide (c = 2))).1.clients ∧
        2 ∉ (BroadcastMessage
              (BroadcastMessage ⟨[1, 2, 3]⟩ (fun c => !decide (c = 2))).1
              (fun _ => true)).2 ∧
        2 ∉ (BroadcastMessage
              (BroadcastMessage ⟨[1, 2, 3]⟩ (fun c => !decide (c = 2))).1
              (fun _ => true)).1.clients) ∧
      ((fun (c : Conn) => !decide (c = 2)) 2 = true →
        2 ∈ (BroadcastMessage ⟨[1, 2, 3]⟩ (fun c => !decide (c = 2))).1.clients)) :=
  ⟨by decide, by decide,
    C8_failed_subscriber_removed ⟨[1, 2, 3]⟩ (fun c => !decide (c = 2))
      (fun _ => true) 2 (by decide) (by decide)⟩

end Websocket

namespace Videomanager

/-- The collection loop keeps, in iteration order, the names of exactly
the non-directory entries recognised by `isVideoFile`. -/
theorem collectVideos_eq (files : List DirEntry) :
    collectVideos files =
      (files.filter (fun f => !f.isDir && isVideoFile f.name)).map
        DirEntry.name := by
  induction files with
  | nil => rfl
  | cons f fs ih =>
      simp only [collectVideos, List.filter_cons]
      by_cases h : (!f.isDir && isVideoFile f.name) = true
      · simp [h, ih]
      · simp [h, ih]

/-- Membership in the collected video list: exactly the names of the
non-directory entries recognised by `isVideoFile`. -/
theorem mem_collectVideos (files : List DirEntry) (n : String) :
    n ∈ collectVideos files ↔
      ∃ f, f ∈ files ∧ f.name = n ∧ f.isDir = false ∧ isVideoFile n = true := by
  rw [collectVideos_eq]
  simp only [List.mem_map, List.mem_filter, Bool.and_eq_true, Bool.not_eq_true']
  constructor
  · rintro ⟨f, ⟨hf, hd, hv⟩, rfl⟩
    exact ⟨f, hf, rfl, hd, hv⟩
  · rintro ⟨f, hf, rfl, hd, hv⟩
    exact ⟨f, ⟨hf, hd, hv⟩, rfl⟩

/-- C10: a failed directory read is propagated as the error with no list
produced; a successful read yields exactly the names of the non-directory
entries whose extension, lowercased, is `.mp4`, `.flv`, `.mkv` or
`.avi`. -/
theorem C10_list_videos_filters_by_extension (e : GoError)
    (files : List DirEntry) :
    ListVideos (Except.error e) = Except.error e ∧
    ListVideos (Except.ok files) = Except.ok (collectVideos files) ∧
    ∀ n : String,
      n ∈ collectVideos files ↔
        ∃ f, f ∈ files ∧ f.name = n ∧ f.isDir = false ∧
          ((Ext n).toLower = ".mp4" ∨ (Ext n).toLower = ".flv" ∨
            (Ext n).toLower = ".mkv" ∨ (Ext n).toLower = ".avi") := by
  refine ⟨rfl, rfl, fun n => ?_⟩
  rw [mem_collectVideos]
  have hv : isVideoFile n = true ↔
      ((Ext n).toLower = ".mp4" ∨ (Ext n).toLower = ".flv" ∨
        (Ext n).toLower = ".mkv" ∨ (Ext n).toLower = ".avi") := by
    simp [isVideoFile, or_assoc]
  constructor
  · rintro ⟨f, hf, hn, hd, hvf⟩
    exact ⟨f, hf, hn, hd, hv.mp hvf⟩
  · rintro ⟨f, hf, hn, hd, hvf⟩
    exact ⟨f, hf, hn, hd, hv.mpr hvf⟩

end Videomanager
